import Mathlib

/-!
Verification development for `src/utils/XLFMDataset.py`.

The file shallowly embeds the index arithmetic and array transformations of the
three dataset classes (`XLFMDatasetFull`, `XLFMDatasetFullRegistration`,
`XLFMDatasetVol`).  Tensors are modelled as total functions from indices to
values (float16 payloads abstracted as exact integers or rationals: none of the
embedded operations performs rounding-sensitive arithmetic on them), Python
lists as `List`, Python ints as `ℤ`, shapes as `ℕ`.  Every slice written
`t[a:b]` in the source is modelled with Python slice semantics for non-negative
bounds: the selected index range is `[a, min b n)` on an axis of size `n`.
All the slices relevant to the claims fall in that regime.
-/

/-! ## PatchExtractor: `extract_views` (XLFMDataset.py lines 209-233)

The Python function works on a `[batch, channel, H, W]` tensor, but every slice
it performs is of the form `t[:, :, r0:r1, c0:c1]`, acting identically and
independently on each `(batch, channel)` plane; the embedding therefore models
one plane, `image : ℕ → ℕ → ℤ`.  The lenslet coordinate table is modelled as a
total function `coords : ℕ → ℤ × ℤ` (the loop only reads rows `0 ≤ nLens <
n_lenslets`; rows outside the table are never produced by claims).  The output
`stacked_views` is zero-initialised, so a slot position never written stays `0`.
-/

/-- Clamped lower slice bound for one axis: `max(c - half, 0)` (line 224-225). -/
def pyPatchStart (c : ℤ) (half : ℕ) : ℤ := max (c - (half : ℤ)) 0

/-- Length of the Python slice `image[..., lb : c + half]` on an axis of size
`n` (line 226): the upper bound is not clamped in the source, but Python slicing
caps it at the axis size; empty when the bounds cross. -/
def pyPatchLen (c : ℤ) (half : ℕ) (n : ℕ) : ℕ :=
  (min (c + (half : ℤ)) (n : ℤ) - pyPatchStart c half).toNat

/-- Value of `stacked_views[.., .., nLens, u, v]` after the extraction loop
(lines 218-227).  The patch of size `p × q` is written right/bottom-aligned by
`stacked_views[:, :, nLens, -p:, -q:] = currPatch`, i.e. slot row `u` holds
patch row `u - (ph - p)` whenever `ph - p ≤ u`, and the zero initialisation
elsewhere.  (For `p = 0` the source would attempt a full-slice assignment of an
empty patch, which torch rejects; the claims only exercise `p, q ≥ 1`.) -/
def extract_views (H W : ℕ) (image : ℕ → ℕ → ℤ) (coords : ℕ → ℤ × ℤ)
    (ph pw : ℕ) (nLens u v : ℕ) : ℤ :=
  if u < ph ∧ v < pw ∧
      ph - pyPatchLen (coords nLens).1 (ph / 2) H ≤ u ∧
      pw - pyPatchLen (coords nLens).2 (pw / 2) W ≤ v then
    image ((pyPatchStart (coords nLens).1 (ph / 2)).toNat +
            (u - (ph - pyPatchLen (coords nLens).1 (ph / 2) H)))
          ((pyPatchStart (coords nLens).2 (pw / 2)).toNat +
            (v - (pw - pyPatchLen (coords nLens).2 (pw / 2) W)))
  else 0

/-! ## SpatialAligner: canonical window (lines 78-85)

`odd_size` is `[currVol.shape[0], currVol.shape[1]]` (the truncation to odd
sizes is commented out in the source), `half_volume_shape = odd_size // 2`,
`volStart = shape // 2 - half_volume_shape`, `volEnd = odd_size + volStart`. -/

/-- Canonical crop window `((volStart0, volStart1), (volEnd0, volEnd1))`
computed from the first volume's spatial extent `(h, w)`. -/
def computeCanonicalWindow (h w : ℕ) : (ℕ × ℕ) × (ℕ × ℕ) :=
  let odd_size := (h, w)
  let half_volume_shape := (odd_size.1 / 2, odd_size.2 / 2)
  let volStart := (h / 2 - half_volume_shape.1, w / 2 - half_volume_shape.2)
  let volEnd := (odd_size.1 + volStart.1, odd_size.2 + volStart.2)
  (volStart, volEnd)

/-! ## Python list helpers used by the classes -/

/-- Python `min(list)` on a non-empty list (the empty case, which Python
rejects, is given the unused default `0`). -/
def pyMin : List ℤ → ℤ
  | [] => 0
  | a :: t => t.foldl min a

/-- Python `max(list)` / `np.max(list)` on a non-empty list (the empty case,
which Python and numpy reject, is given the unused default `0`). -/
def pyMax : List ℤ → ℤ
  | [] => 0
  | a :: t => t.foldl max a

/-- Insertion of one element into a sorted list, used to model Python
`sorted`. -/
def insertSorted (x : ℤ) : List ℤ → List ℤ
  | [] => [x]
  | y :: ys => if x ≤ y then x :: y :: ys else y :: insertSorted x ys

/-- Python `sorted(list)` (ascending). -/
def pySorted (l : List ℤ) : List ℤ := l.foldr insertSorted []

/-- Python `list(range(a, b + 1))`: the integers from `a` to `b` inclusive. -/
def intRangeIncl (a b : ℤ) : List ℤ :=
  (List.range (b + 1 - a).toNat).map (fun i => a + (i : ℤ))

/-! ## `__len__` of the dataset classes -/

/-- `XLFMDatasetFull.__len__` (lines 131-133): returns `self.n_images`,
unconditionally. -/
def XLFMDatasetFull_len (n_images : ℤ) : ℤ := n_images

/-- `XLFMDatasetFullRegistration.__len__` (lines 365-369), identical to
`XLFMDatasetVol.__len__` (lines 617-621): `n_images` when
`use_random_shifts`, else `n_images - np.max(temporal_shifts)`. -/
def XLFMDatasetFullRegistration_len (n_images : ℤ) (temporal_shifts : List ℤ)
    (use_random_shifts : Bool) : ℤ :=
  if use_random_shifts then n_images else n_images - pyMax temporal_shifts

/-! ## TemporalIndexer: shift resolution in
`XLFMDatasetFullRegistration.__getitem__` (lines 421-434), identical in
`XLFMDatasetVol.__getitem__` (lines 673-686)

`rnd` stands for the values `torch.randint(0, n_images - 1, [3])` would
produce on this access; it is a parameter so that theorems can quantify over
the random draw.  (The source draws exactly 3 values; the claims only exercise
shift sets of length at most 3.) -/

/-- The list `indices` computed by `__getitem__` before slicing
`stacked_views`:  `temporal_shifts_ixs` starts as `list(range(n_frames))`;
when the configured shifts are non-empty and, sorted, do not equal
`range(min, max + 1)`, they replace it (base `index`), and if additionally
`use_random_shifts` is set, a fresh random draw replaces it (base `0`). -/
def registration_getitem_indices (temporal_shifts : List ℤ)
    (use_random_shifts : Bool) (index : ℤ) (rnd : List ℤ) : List ℤ :=
  if 0 < temporal_shifts.length ∧
      ¬ pySorted temporal_shifts
          = intRangeIncl (pyMin temporal_shifts) (pyMax temporal_shifts) then
    if use_random_shifts then
      (List.range temporal_shifts.length).map (fun i => (0 : ℤ) + rnd.getD i 0)
    else
      (List.range temporal_shifts.length).map
        (fun i => index + temporal_shifts.getD i 0)
  else
    (List.range temporal_shifts.length).map
      (fun i => index +
        ((List.range temporal_shifts.length).map (fun j : ℕ => (j : ℤ))).getD i 0)

/-! ## XLFMDatasetFull ingest and `__getitem__` (lines 62-119, 185-201)

`sorted_files k` stands for the volume decoded from the `k`-th file of
`sorted(glob(vols_path))`, i.e. the volume of physical acquisition timestep
`k`; `img_dataset k` stands for the sensor frame of physical timestep `k`
(after padding and cropping, which act frame-wise).  `n_images =
min(len(images_to_use), n_frames)` in the source; the embedding takes
`n_images = images_to_use.length`, the claims' regime of enough stored
frames. -/

/-- Line 70: `all_files = [sorted(glob(vols_path))[images_to_use[i]] for i in
range(n_images)]` — the file list is re-indexed through `images_to_use`
before the ingest loop runs. -/
def full_all_files {α : Type} (sorted_files : ℕ → α) (images_to_use : List ℕ)
    (n_images : ℕ) : List α :=
  (List.range n_images).map (fun i => sorted_files (images_to_use.getD i 0))

/-- Lines 97-103: the ingest loop sets `curr_img = nImg` and fills
`self.vols[nImg]` from `all_files[curr_img]`. -/
def full_vols_slot {α : Type} (all_files : List α) (d : α) (nImg : ℕ) : α :=
  all_files.getD nImg d

/-- Lines 97-119: the ingest loop sets `curr_img = nImg` and fills
`self.stacked_views[nImg]` from `img_dataset[curr_img]`. -/
def full_stacked_views_slot {β : Type} (img_dataset : ℕ → β) (nImg : ℕ) : β :=
  img_dataset nImg

/-- `XLFMDatasetFull.__getitem__` (lines 185-201) with `load_vols = True`:
`new_index = images_to_use[index]`, `indices = [new_index +
temporal_shifts[i]]`, views sliced from `stacked_views` at `indices`,
volume sliced from `vols` at `index`. -/
def full_getitem {α β : Type} (images_to_use temporal_shifts : List ℕ)
    (stacked_views : ℕ → β) (vols : ℕ → α) (index : ℕ) : List β × α :=
  ((List.range temporal_shifts.length).map
      (fun i => stacked_views (images_to_use.getD index 0 + temporal_shifts.getD i 0)),
   vols index)

/-! ## `pad_img_to_min` (lines 178-183) -/

/-- Shape effect of `torch.nn.functional.pad` on the last two axes of a 4-d
tensor with pad list `(left, right, top, bottom)`: height gains `top + bottom`,
width gains `left + right` (negative entries crop). -/
def fpad_shape2d (h w left right top bottom : ℤ) : ℤ × ℤ :=
  (h + top + bottom, w + left + right)

/-- Output shape of `pad_img_to_min` on an `(h, w)` frame: `min_size =
min(h, w)`, `img_pad = [min_size - w, min_size - h]`, pad list
`[img_pad[0] // 2, img_pad[0] // 2, img_pad[1], img_pad[1]]` (Python `//` is
floor division, `Int.fdiv`). -/
def pad_img_to_min_shape (h w : ℤ) : ℤ × ℤ :=
  let min_size := min h w
  let pad_w := min_size - w
  let pad_h := min_size - h
  fpad_shape2d h w (Int.fdiv pad_w 2) (Int.fdiv pad_w 2) pad_h pad_h

/-! ## Border blanking (lines 105-111) -/

/-- The six sequential margin assignments applied to a decoded volume of shape
`d0 × d1 × d2` (the source's `currVol[:b] = 0`, `currVol[-b:] = 0`, ... on each
of the three axes in turn; a Python slice `[-b:]` starts at `max(d - b, 0)`,
which is `d - b` in `ℕ`). -/
def border_blank (b d0 d1 d2 : ℕ) (vol : ℕ → ℕ → ℕ → ℤ) : ℕ → ℕ → ℕ → ℤ :=
  let v1 := fun i j k => if i < b then 0 else vol i j k
  let v2 := fun i j k => if d0 - b ≤ i then 0 else v1 i j k
  let v3 := fun i j k => if j < b then 0 else v2 i j k
  let v4 := fun i j k => if d1 - b ≤ j then 0 else v3 i j k
  let v5 := fun i j k => if k < b then 0 else v4 i j k
  fun i j k => if d2 - b ≤ k then 0 else v5 i j k

/-- Lines 105-111 with their guard: the blanking block runs only when
`border_blanking > 0`. -/
def ingest_border_blanking (b d0 d1 d2 : ℕ) (vol : ℕ → ℕ → ℕ → ℤ) :
    ℕ → ℕ → ℕ → ℤ :=
  if 0 < b then border_blank b d0 d1 d2 vol else vol

/-! ## Decoded values and the infinity assertion (lines 102-104, 236-243)

A decoded array element is a float16/float32 value: either finite (abstracted
as an exact rational; rounding does not affect any predicate below), `±inf`,
or `NaN`. -/

/-- An element of a decoded numpy / torch array. -/
inductive NPVal
  | fin : ℚ → NPVal
  | posInf : NPVal
  | negInf : NPVal
  | nan : NPVal

/-- `np.clip(x, lo, hi)`, elementwise: `minimum(maximum(x, lo), hi)`; `±inf`
collapse to the bounds, `NaN` propagates. -/
def np_clip (lo hi : ℚ) : NPVal → NPVal
  | NPVal.fin x => NPVal.fin (min (max x lo) hi)
  | NPVal.posInf => NPVal.fin hi
  | NPVal.negInf => NPVal.fin lo
  | NPVal.nan => NPVal.nan

/-- `torch.finfo(torch.float16).max = 65504`, the `max_val` computed by
`XLFMDatasetFull.read_tiff_stack` (lines 238-241). -/
def float16_max_val : ℚ := 65504

/-- `XLFMDatasetFull.read_tiff_stack` (lines 236-243), value level:
`np.clip(tiffarray.raw_images, 0, max_val)` applied to every element (the
permutation and dtype cast do not change which values are infinite). -/
def full_read_tiff_stack (raw : List NPVal) : List NPVal :=
  raw.map (np_clip 0 float16_max_val)

/-- `torch.isinf`, elementwise: true exactly on `±inf` (not on `NaN`). -/
def torch_isinf : NPVal → Bool
  | NPVal.posInf => true
  | NPVal.negInf => true
  | _ => false

/-- Whether the ingest assertion `assert not torch.isinf(currVol).any()`
(line 104) fires on the volume decoded by `XLFMDatasetFull.read_tiff_stack`
from raw values `raw`. -/
def full_ingest_infinity_assert_fires (raw : List NPVal) : Bool :=
  (full_read_tiff_stack raw).any torch_isinf

/-- Non-finiteness of a decoded value (`inf`, `-inf` or `NaN`). -/
def np_nonfinite : NPVal → Bool
  | NPVal.fin _ => false
  | _ => true

/-! ## `torch.randint` and the Registration volume draw (lines 440-442)

`torch.randint` has exactly two overloads, `randint(high, size)` and
`randint(low, high, size)`, where `size` must be a tuple of ints; a plain int
is not accepted for `size` and there is no default for it.  The argument-parse
model returns `none` (a `TypeError`) when neither overload matches. -/

/-- A positional argument to `torch.randint`: a Python int or a size tuple. -/
inductive TorchArg
  | aint : ℤ → TorchArg
  | asize : List ℕ → TorchArg

/-- Argument parsing of `torch.randint`: yields `(low, high, size)` for the
two valid overloads, `none` otherwise. -/
def randint_parse : List TorchArg → Option (ℤ × ℤ × List ℕ)
  | [TorchArg.aint high, TorchArg.asize s] => some (0, high, s)
  | [TorchArg.aint low, TorchArg.aint high, TorchArg.asize s] =>
      some (low, high, s)
  | _ => none

/-- The sample index used for `vol_out2 = self.vols[torch.randint(0,
self.__len__()), ...]` in `XLFMDatasetFullRegistration.__getitem__`
(line 440): the source passes the two ints `0` and `self.__len__()` and no
size, so the call is parsed first; `draw` stands for the raw randomness that
a successful call would consume. -/
def registration_getitem_vol_index (n_images : ℤ) (shifts : List ℤ)
    (use_random_shifts : Bool) (draw : ℤ) : Option ℤ :=
  match randint_parse
      [TorchArg.aint 0,
       TorchArg.aint (XLFMDatasetFullRegistration_len n_images shifts use_random_shifts)] with
  | none => none
  | some (lo, hi, _) => some (lo + draw % (hi - lo))

/-! # Theorems -/

/-- Helper: the `i`-th element (with default) of `(List.range n).map f` is
`f i` when `i < n`. -/
theorem getD_range_map {α : Type} (f : ℕ → α) (n i : ℕ) (d : α) (h : i < n) :
    ((List.range n).map f).getD i d = f i := by
  rw [List.getD_eq_getElem?_getD, List.getElem?_map, List.getElem?_range h]
  rfl

/-- C1: for a lenslet center `(cx, cy)` whose ideal `ph × pw` patch rectangle
`[cx - ph/2, cx + ph/2) × [cy - pw/2, cy + pw/2)` lies fully inside the
`H × W` frame (and `ph`, `pw` even as the extractor assumes), every position
`(u, v)` of the `ph × pw` output slot of that lenslet holds exactly the source
pixel `image (cx - ph/2 + u) (cy - pw/2 + v)`: the slot is filled entirely,
with no zero-padding remaining anywhere. -/
theorem extract_views_interior_exact
    (H W : ℕ) (image : ℕ → ℕ → ℤ) (coords : ℕ → ℤ × ℤ) (ph pw : ℕ)
    (n : ℕ) (cx cy : ℤ)
    (hc1 : (coords n).1 = cx) (hc2 : (coords n).2 = cy)
    (hph : ph % 2 = 0) (hpw : pw % 2 = 0)
    (hx0 : ((ph / 2 : ℕ) : ℤ) ≤ cx) (hx1 : cx + ((ph / 2 : ℕ) : ℤ) ≤ (H : ℤ))
    (hy0 : ((pw / 2 : ℕ) : ℤ) ≤ cy) (hy1 : cy + ((pw / 2 : ℕ) : ℤ) ≤ (W : ℤ))
    (u v : ℕ) (hu : u < ph) (hv : v < pw) :
    extract_views H W image coords ph pw n u v
      = image ((cx - ((ph / 2 : ℕ) : ℤ)).toNat + u)
              ((cy - ((pw / 2 : ℕ) : ℤ)).toNat + v) := by
  have hp : pyPatchLen cx (ph / 2) H = ph := by
    unfold pyPatchLen pyPatchStart; omega
  have hq : pyPatchLen cy (pw / 2) W = pw := by
    unfold pyPatchLen pyPatchStart; omega
  have hs : pyPatchStart cx (ph / 2) = cx - ((ph / 2 : ℕ) : ℤ) := by
    unfold pyPatchStart; omega
  have ht : pyPatchStart cy (pw / 2) = cy - ((pw / 2 : ℕ) : ℤ) := by
    unfold pyPatchStart; omega
  simp only [extract_views, hc1, hc2, hp, hq, hs, ht]
  rw [if_pos ⟨hu, hv, by omega, by omega⟩]
  simp [Nat.sub_self]

/-- Witness for C1: an `8 × 8` frame, a `4 × 4` patch around the interior
center `(4, 4)`; slot position `(1, 2)` holds source pixel `(3, 4)`, whose
value under `image i j = 10 i + j` is `34`. -/
theorem extract_views_interior_exact_witness :
    extract_views 8 8 (fun i j => (i : ℤ) * 10 + (j : ℤ))
      (fun _ => ((4 : ℤ), (4 : ℤ))) 4 4 0 1 2 = 34 := by
  have h := extract_views_interior_exact 8 8
    (fun i j => (i : ℤ) * 10 + (j : ℤ)) (fun _ => ((4 : ℤ), (4 : ℤ))) 4 4 0 4 4
    rfl rfl (by decide) (by decide) (by decide) (by decide) (by decide)
    (by decide) 1 2 (by decide) (by decide)
  rw [h]; decide

/-- C2: for a lenslet center `(cx, cy)` (non-negative, as loaded coordinates
are) whose ideal patch rectangle extends past the top and/or left frame edge
while still fitting on the bottom/right, the extractor clamps only the lower
bound of each axis (the upper bound `c + half` is untouched: conjuncts 1-2
show the truncated length reaches it exactly), and the resulting `p × q`
truncated patch is placed right/bottom-aligned: the slot is `0` at every
position above/left of the bottom-right `p × q` sub-rectangle (conjunct 3),
and inside it matches the source pixels exactly (conjunct 4). -/
theorem extract_views_topleft_clamp
    (H W : ℕ) (image : ℕ → ℕ → ℤ) (coords : ℕ → ℤ × ℤ) (ph pw : ℕ)
    (n : ℕ) (cx cy : ℤ)
    (hc1 : (coords n).1 = cx) (hc2 : (coords n).2 = cy)
    (hcx : 0 ≤ cx) (hcy : 0 ≤ cy)
    (hph : ph % 2 = 0) (hpw : pw % 2 = 0) (hph0 : 0 < ph) (hpw0 : 0 < pw)
    (hover : cx < ((ph / 2 : ℕ) : ℤ) ∨ cy < ((pw / 2 : ℕ) : ℤ))
    (hx1 : cx + ((ph / 2 : ℕ) : ℤ) ≤ (H : ℤ))
    (hy1 : cy + ((pw / 2 : ℕ) : ℤ) ≤ (W : ℤ))
    (u v : ℕ) (hu : u < ph) (hv : v < pw) :
    pyPatchLen cx (ph / 2) H
        = (cx + ((ph / 2 : ℕ) : ℤ) - pyPatchStart cx (ph / 2)).toNat
    ∧ pyPatchLen cy (pw / 2) W
        = (cy + ((pw / 2 : ℕ) : ℤ) - pyPatchStart cy (pw / 2)).toNat
    ∧ ((u < ph - pyPatchLen cx (ph / 2) H ∨ v < pw - pyPatchLen cy (pw / 2) W) →
        extract_views H W image coords ph pw n u v = 0)
    ∧ (ph - pyPatchLen cx (ph / 2) H ≤ u → pw - pyPatchLen cy (pw / 2) W ≤ v →
        extract_views H W image coords ph pw n u v
          = image ((pyPatchStart cx (ph / 2)).toNat +
                    (u - (ph - pyPatchLen cx (ph / 2) H)))
                  ((pyPatchStart cy (pw / 2)).toNat +
                    (v - (pw - pyPatchLen cy (pw / 2) W)))) := by
  refine ⟨?_, ?_, ?_, ?_⟩
  · unfold pyPatchLen pyPatchStart; omega
  · unfold pyPatchLen pyPatchStart; omega
  · intro h
    simp only [extract_views, hc1, hc2]
    rw [if_neg]
    rintro ⟨-, -, h3, h4⟩
    rcases h with h | h <;> omega
  · intro h3 h4
    simp only [extract_views, hc1, hc2]
    rw [if_pos ⟨hu, hv, h3, h4⟩]

/-- Witness for C2: center at the frame's top-left corner `(0, 0)` with a
`4 × 4` patch on an `8 × 8` frame; the truncated patch is `2 × 2`, so slot
position `(1, 1)` is zero and slot position `(3, 3)` holds source pixel
`(1, 1)`, whose value under `image i j = 10 i + j + 1` is `12`. -/
theorem extract_views_topleft_clamp_witness :
    extract_views 8 8 (fun i j => (i : ℤ) * 10 + (j : ℤ) + 1)
        (fun _ => ((0 : ℤ), (0 : ℤ))) 4 4 0 1 1 = 0
    ∧ extract_views 8 8 (fun i j => (i : ℤ) * 10 + (j : ℤ) + 1)
        (fun _ => ((0 : ℤ), (0 : ℤ))) 4 4 0 3 3 = 12 := by
  constructor
  · exact (extract_views_topleft_clamp 8 8
      (fun i j => (i : ℤ) * 10 + (j : ℤ) + 1) (fun _ => ((0 : ℤ), (0 : ℤ)))
      4 4 0 0 0 rfl rfl (by decide) (by decide) (by decide) (by decide)
      (by decide) (by decide) (Or.inl (by decide)) (by decide) (by decide)
      1 1 (by decide) (by decide)).2.2.1 (Or.inl (by decide))
  · have h := (extract_views_topleft_clamp 8 8
      (fun i j => (i : ℤ) * 10 + (j : ℤ) + 1) (fun _ => ((0 : ℤ), (0 : ℤ)))
      4 4 0 0 0 rfl rfl (by decide) (by decide) (by decide) (by decide)
      (by decide) (by decide) (Or.inl (by decide)) (by decide) (by decide)
      3 3 (by decide) (by decide)).2.2.2 (by decide) (by decide)
    rw [h]; decide

/-- C3 counterexample: with contiguous shifts `[0, 1, 2]` and
`use_random_shifts` set, `__getitem__` does NOT draw a fresh random shift set:
the resolved indices are `[3, 4, 5]` for sample index `3` whatever the random
draw would have produced, and with non-contiguous shifts `[0, 2]` and
`use_random_shifts` false the configured shifts are used deterministically
(`[7, 9]` for sample index `7`), again contradicting the claim that a random
set replaces them. -/
theorem temporal_shift_resolution_counterexample :
    registration_getitem_indices [0, 1, 2] true 3 [100, 101, 102] = [3, 4, 5]
    ∧ registration_getitem_indices [0, 1, 2] true 3 [200, 201, 202] = [3, 4, 5]
    ∧ registration_getitem_indices [0, 2] false 7 [100, 101, 102] = [7, 9] := by
  decide

/-- C3 amended: when the configured shifts sorted equal the contiguous integer
range `[min(shifts) .. max(shifts)]` (in particular any contiguous ascending
run, whether or not it starts at `0`), the resolved physical index `i` is
`sample_index + i`, for every `use_random_shifts` setting and every random
draw; when the shifts are non-contiguous, the configured shifts themselves are
used with base `sample_index` if `use_random_shifts` is false, and only when
`use_random_shifts` is additionally true is the random draw used, with base
`0`. -/
theorem temporal_shift_resolution (shifts rnd : List ℤ) (index : ℤ) :
    (pySorted shifts = intRangeIncl (pyMin shifts) (pyMax shifts) →
      ∀ r : Bool, registration_getitem_indices shifts r index rnd
        = (List.range shifts.length).map (fun i : ℕ => index + (i : ℤ)))
    ∧ (0 < shifts.length →
       ¬ pySorted shifts = intRangeIncl (pyMin shifts) (pyMax shifts) →
        registration_getitem_indices shifts false index rnd
          = (List.range shifts.length).map (fun i => index + shifts.getD i 0)
        ∧ registration_getitem_indices shifts true index rnd
          = (List.range shifts.length).map (fun i => rnd.getD i 0)) := by
  constructor
  · intro hc r
    unfold registration_getitem_indices
    rw [if_neg (fun h => h.2 hc)]
    apply List.map_congr_left
    intro a ha
    rw [getD_range_map _ _ _ _ (List.mem_range.mp ha)]
  · intro hl hnc
    constructor
    · unfold registration_getitem_indices
      rw [if_pos ⟨hl, hnc⟩]
      rfl
    · unfold registration_getitem_indices
      rw [if_pos ⟨hl, hnc⟩]
      simp
  
/-- Witness for C3: shifts `[0, 1, 2]` (contiguous) resolve sample index `3`
to `[3, 4, 5]` even with `use_random_shifts` set; non-contiguous shifts
`[0, 2]` resolve sample index `3` to `[3, 5]` without randomness, and to the
random draw `[100, 101]` when `use_random_shifts` is set. -/
theorem temporal_shift_resolution_witness :
    registration_getitem_indices [0, 1, 2] true 3 [100, 101, 102] = [3, 4, 5]
    ∧ registration_getitem_indices [0, 2] false 3 [100, 101, 102] = [3, 5]
    ∧ registration_getitem_indices [0, 2] true 3 [100, 101, 102] = [100, 101] := by
  refine ⟨?_, ?_, ?_⟩
  · have h := (temporal_shift_resolution [0, 1, 2] [100, 101, 102] 3).1
      (by decide) true
    rw [h]; decide
  · have h := ((temporal_shift_resolution [0, 2] [100, 101, 102] 3).2
      (by decide) (by decide)).1
    rw [h]; decide
  · have h := ((temporal_shift_resolution [0, 2] [100, 101, 102] 3).2
      (by decide) (by decide)).2
    rw [h]; decide

/-- C4 counterexample: with `n_images = 10`, shifts `[0, 1, 2]` and
`use_random_shifts` false, the claim predicts `len() = 10 - max(shifts) = 8`,
but `XLFMDatasetFull.__len__` returns `10`. -/
theorem full_len_counterexample :
    XLFMDatasetFull_len 10 = 10
    ∧ (10 : ℤ) - pyMax [0, 1, 2] = 8
    ∧ XLFMDatasetFull_len 10 ≠ 8 := by
  decide

/-- C4 amended: `XLFMDatasetFull.__len__` returns `n_images` unconditionally
(its ingest loads `max(images_to_use) + max(shifts) + 1` frames, so every
shifted window stays in range); the formula `n_images - max(shifts)` when
`use_random_shifts` is false and `n_images` otherwise is implemented by
`XLFMDatasetFullRegistration.__len__` and `XLFMDatasetVol.__len__`. -/
theorem len_policy_assignment (n_images : ℤ) (temporal_shifts : List ℤ) :
    XLFMDatasetFull_len n_images = n_images
    ∧ XLFMDatasetFullRegistration_len n_images temporal_shifts true = n_images
    ∧ XLFMDatasetFullRegistration_len n_images temporal_shifts false
        = n_images - pyMax temporal_shifts :=
  ⟨rfl, rfl, rfl⟩

/-- C5 counterexample: on an odd-sized `5 × 7` reference volume the canonical
window is `((0, 0), (5, 7))` — the full extent, start `(0, 0)` — not shifted
by one voxel as the claim asserts for odd sizes (`half = shape // 2` is
subtracted from the same `shape // 2`, so the start is always `0`). -/
theorem canonical_window_odd_counterexample :
    computeCanonicalWindow 5 7 = ((0, 0), (5, 7)) := by
  decide

/-- C5 amended: the canonical window computed with `half = (H//2, W//2)`,
`start = (H//2 - half_h, W//2 - half_w)`, `end = start + (H, W)` equals the
full extent `((0, 0), (H, W))` for every input size, even or odd; being a pure
function of the extent, recomputing it on the same volume yields identical
results. -/
theorem canonical_window_full_extent (h w : ℕ) :
    computeCanonicalWindow h w = ((0, 0), (h, w)) := by
  simp [computeCanonicalWindow, Nat.sub_self]

/-- C6 counterexample: with `images_to_use = [1, 0, 1]` and shifts `[0]`
(identifying each decoded volume and frame with its physical timestep),
`__getitem__(0)` returns view window `[1]` and volume `1`: the volume stored
at tensor position `0` was filled from physical frame `images_to_use[0] = 1`,
not from physical frame `0` as the claim asserts, and the returned pair is
time-aligned (both physical timestep `1`) even though
`images_to_use[0] = 1 ≠ 0`, refuting the claimed equivalence. -/
theorem full_pairing_counterexample :
    full_getitem [1, 0, 1] [0] (full_stacked_views_slot (fun k => k))
        (full_vols_slot (full_all_files (fun k => k) [1, 0, 1] 3) 0) 0
      = ([1], 1)
    ∧ List.getD [1, 0, 1] 0 0 ≠ 0 := by
  decide

/-- C6 amended: in `XLFMDatasetFull` with `load_vols` true, `__getitem__
(index)` returns views taken at physical frame indices
`images_to_use[index] + shifts[i]` and, because the volume file list is
re-indexed through `images_to_use` before ingest (line 70) while the ingest
loop uses `curr_img = nImg` (line 100), the volume stored at tensor position
`index` holds physical frame `images_to_use[index]`; hence the returned
`(views, volume)` pair corresponds to the same acquisition timestep
`images_to_use[index]` (at shift `0`) for every `index < n_images` and every
`images_to_use`. -/
theorem full_pairing_aligned {α β : Type} (images_to_use temporal_shifts : List ℕ)
    (sorted_files : ℕ → α) (img_dataset : ℕ → β) (d : α) (index : ℕ)
    (h : index < images_to_use.length) :
    (full_getitem images_to_use temporal_shifts
        (full_stacked_views_slot img_dataset)
        (full_vols_slot
          (full_all_files sorted_files images_to_use images_to_use.length) d)
        index).2
      = sorted_files (images_to_use.getD index 0)
    ∧ (full_getitem images_to_use temporal_shifts
        (full_stacked_views_slot img_dataset)
        (full_vols_slot
          (full_all_files sorted_files images_to_use images_to_use.length) d)
        index).1
      = (List.range temporal_shifts.length).map
          (fun i => img_dataset
            (images_to_use.getD index 0 + temporal_shifts.getD i 0)) := by
  constructor
  · show full_vols_slot
      (full_all_files sorted_files images_to_use images_to_use.length) d index
        = _
    unfold full_vols_slot full_all_files
    exact getD_range_map _ _ _ _ h
  · rfl

/-- Witness for C6 amended: `images_to_use = [1, 0, 1]`, shifts `[0, 1]`,
physical volume `k ↦ 100 k`, physical frame `k ↦ 10 k`: `__getitem__(0)`
yields views `[10, 20]` (physical frames `1, 2`) and volume `100`
(physical volume `1 = images_to_use[0]`). -/
theorem full_pairing_aligned_witness :
    (full_getitem [1, 0, 1] [0, 1]
        (full_stacked_views_slot (fun k => 10 * k))
        (full_vols_slot (full_all_files (fun k => 100 * k) [1, 0, 1] 3) 0)
        0).2 = 100
    ∧ (full_getitem [1, 0, 1] [0, 1]
        (full_stacked_views_slot (fun k => 10 * k))
        (full_vols_slot (full_all_files (fun k => 100 * k) [1, 0, 1] 3) 0)
        0).1 = [10, 20] := by
  have h := full_pairing_aligned [1, 0, 1] [0, 1] (fun k => 100 * k)
    (fun k => 10 * k) 0 0 (by decide)
  exact ⟨h.1.trans (by decide), h.2.trans (by decide)⟩

/-- C7: `pad_img_to_min` pads an `(h, w)` frame asymmetrically: the width axis
receives `(min(h, w) - w) // 2` on each side while the height axis receives
the full difference `min(h, w) - h` duplicated on both sides, so the output
shape is `(h + 2 * (min(h, w) - h), w + 2 * ((min(h, w) - w) // 2))`. -/
theorem pad_img_to_min_shape_eq (h w : ℤ) :
    pad_img_to_min_shape h w
      = (h + 2 * (min h w - h), w + 2 * Int.fdiv (min h w - w) 2) := by
  simp only [pad_img_to_min_shape, fpad_shape2d, Prod.mk.injEq]
  constructor <;> ring

/-- C8: the volume draw of `XLFMDatasetFullRegistration.__getitem__` never
produces an index: `torch.randint(0, self.__len__())` passes two ints and no
size tuple, which matches neither `randint` overload, so the call raises a
`TypeError` for every configuration and every would-be random draw (the claim
says a uniformly random sample index is returned). -/
theorem registration_random_volume_raises (n_images : ℤ) (shifts : List ℤ)
    (use_random_shifts : Bool) (draw : ℤ) :
    registration_getitem_vol_index n_images shifts use_random_shifts draw
      = none :=
  rfl

/-- C9: for `border_blanking = b > 0` on a `d0 × d1 × d2` volume, ingest
zeroes exactly the voxels within `b` of one of the six faces (index `< b` or
`≥ d - b` on some axis) and every interior voxel keeps its original value. -/
theorem border_blanking_margin (b d0 d1 d2 : ℕ) (vol : ℕ → ℕ → ℕ → ℤ)
    (hb : 0 < b) (i j k : ℕ) :
    ingest_border_blanking b d0 d1 d2 vol i j k
      = if i < b ∨ d0 - b ≤ i ∨ j < b ∨ d1 - b ≤ j ∨ k < b ∨ d2 - b ≤ k
        then 0 else vol i j k := by
  simp only [ingest_border_blanking, if_pos hb, border_blank]
  by_cases h1 : i < b <;> by_cases h2 : d0 - b ≤ i <;>
    by_cases h3 : j < b <;> by_cases h4 : d1 - b ≤ j <;>
    by_cases h5 : k < b <;> by_cases h6 : d2 - b ≤ k <;>
    simp [h1, h2, h3, h4, h5, h6]

/-- Witness for C9: `border_blanking = 2` on a `10 × 10 × 10` volume of
constant value `7`: the margin voxel `(1, 5, 5)` is zeroed and the interior
voxel `(5, 5, 5)` (inside the `6 × 6 × 6` core) keeps its value. -/
theorem border_blanking_margin_witness :
    ingest_border_blanking 2 10 10 10 (fun _ _ _ => (7 : ℤ)) 1 5 5 = 0
    ∧ ingest_border_blanking 2 10 10 10 (fun _ _ _ => (7 : ℤ)) 5 5 5 = 7 :=
  ⟨(border_blanking_margin 2 10 10 10 (fun _ _ _ => (7 : ℤ))
      (by decide) 1 5 5).trans (by decide),
   (border_blanking_margin 2 10 10 10 (fun _ _ _ => (7 : ℤ))
      (by decide) 5 5 5).trans (by decide)⟩

/-- C10 counterexample: a decoded volume containing `NaN` (non-finite) passes
the ingest check of `XLFMDatasetFull` — `np.clip` leaves `NaN` in place and
`torch.isinf` does not flag it — and so does one containing `+inf`, which
`np.clip` collapses to the finite bound `65504` before the check; in neither
case does ingest fail, contradicting the claimed equivalence. -/
theorem decode_infinity_counterexample :
    np_nonfinite NPVal.nan = true
    ∧ full_ingest_infinity_assert_fires [NPVal.nan] = false
    ∧ np_nonfinite NPVal.posInf = true
    ∧ full_ingest_infinity_assert_fires [NPVal.posInf] = false := by
  constructor
  · rfl
  constructor
  · rfl
  constructor
  · rfl
  · rfl

/-- C10 amended: the `assert not torch.isinf(currVol).any()` check in
`XLFMDatasetFull.__init__` never fires: `read_tiff_stack` clips every decoded
value into `[0, 65504]`, mapping `±inf` to the finite bounds, and `NaN`,
though non-finite, is not an infinity — so ingest continues past the check
for every decoded volume, finite or not. -/
theorem full_ingest_never_raises (raw : List NPVal) :
    full_ingest_infinity_assert_fires raw = false := by
  simp only [full_ingest_infinity_assert_fires, full_read_tiff_stack,
    List.any_map, List.any_eq_false, Function.comp]
  intro x hx
  cases x <;> simp [np_clip, torch_isinf]
